import Mathlib

/-!
Verification of the mutation execution core of the portainer management-plane
backend: the set reconciler and access synchronizer
(api/http/handler/endpoints/endpoint_registry_access.go), the partial-update
merge engine (api/http/handler/settings/settings_update.go), the dual-mode
transactional mutation executor, and the password-update handler
(api/http/handler/users/user_update_password.go).

Go machine integers are modelled as Nat/Int, Go `*T` optional payload fields
as `Option T`, fallible calls as `Except`/`Option`, and external collaborators
(datastore, kubernetes client, crypto service, helm validator, ...) as
explicit environment records of response functions.  External calls issued by
a handler are recorded in an explicit trace list.
-/

namespace Portainer

/-! ## Set Reconciler (endpoint_registry_access.go, lines 165-186)

Go's `stringSet` is `map[string]bool`; a map whose values are only ever `true`
is a finite set of strings, modelled as `Finset String`. -/

/-- `toSet` of endpoint_registry_access.go: builds a `stringSet` from a list,
inserting each element in turn. -/
def toSet (list : List String) : Finset String :=
  list.foldl (fun set el => insert el set) ∅

/-- `setDifference` of endpoint_registry_access.go: keeps the elements of
`setA` for which `setB[el]` is false. -/
def setDifference (setA setB : Finset String) : Finset String :=
  setA.filter (fun el => el ∉ setB)

/-- The `namespacesToRemove` value computed by `updateKubeAccess` (line 140). -/
def namespacesToRemove (oldNamespaces newNamespaces : List String) : Finset String :=
  setDifference (toSet oldNamespaces) (toSet newNamespaces)

/-- The `namespacesToAdd` value computed by `updateKubeAccess` (line 141). -/
def namespacesToAdd (oldNamespaces newNamespaces : List String) : Finset String :=
  setDifference (toSet newNamespaces) (toSet oldNamespaces)

lemma toSet_eq_toFinset (list : List String) : toSet list = list.toFinset := by
  suffices h : ∀ (l : List String) (s : Finset String),
      l.foldl (fun set el => insert el set) s = l.toFinset ∪ s by
    simpa using h list ∅
  intro l
  induction l with
  | nil => intro s; simp
  | cons a t ih =>
      intro s
      simp only [List.foldl_cons, List.toFinset_cons, ih]
      ext x
      simp [or_comm, or_assoc, or_left_comm]

lemma setDifference_eq_sdiff (a b : Finset String) : setDifference a b = a \ b := by
  ext x
  simp [setDifference, Finset.mem_sdiff, Finset.mem_filter]

/-! ## Access Synchronizer (`updateKubeAccess`, endpoint_registry_access.go 136-163)

`updateKubeAccess` iterates over the two difference sets, issuing
`DeleteRegistrySecret` / `CreateRegistrySecret` calls against the kubernetes
client obtained from `K8sClientFactory.GetKubeClient`.  Go iterates the
`map[string]bool` sets in an unspecified order; the model fixes one valid
order (first occurrence order of the input lists).  The external client is a
record of response functions (`none` = call succeeded, `some e` = the call
returned error `e`, for an arbitrary error type `ε`), and the model returns
the trace of calls actually issued together with the function's result. -/

/-- One external secret-provisioning call issued by the synchronizer. -/
inductive SecretCall
  | deleteSecret (ns : String)
  | createSecret (ns : String)
deriving DecidableEq

/-- The kubernetes client returned by `GetKubeClient`, abstracted to the two
methods `updateKubeAccess` calls.  `ε` is the (opaque) Go error type. -/
structure KubeClient (ε : Type) where
  deleteRegistrySecretResult : String → Option ε
  createRegistrySecretResult : String → Option ε

/-- First-occurrence iteration order of the `stringSet` built by `toSet`:
one valid order for Go's unspecified map iteration. -/
def toSetList (list : List String) : List String :=
  list.dedup

/-- List-level counterpart of `setDifference`, in the fixed iteration order. -/
def setDifferenceList (setA setB : List String) : List String :=
  setA.filter (fun el => ¬ setB.contains el)

/-- The `for namespace := range namespacesToRemove` loop of `updateKubeAccess`
(lines 148-153): issue a delete for each namespace, stopping at the first
error. -/
def runDeletes {ε : Type} (cli : KubeClient ε) : List String → List SecretCall × Option ε
  | [] => ([], none)
  | ns :: rest =>
    match cli.deleteRegistrySecretResult ns with
    | some e => ([SecretCall.deleteSecret ns], some e)
    | none =>
      let r := runDeletes cli rest
      (SecretCall.deleteSecret ns :: r.1, r.2)

/-- The `for namespace := range namespacesToAdd` loop of `updateKubeAccess`
(lines 155-160): issue a create for each namespace, stopping at the first
error. -/
def runCreates {ε : Type} (cli : KubeClient ε) : List String → List SecretCall × Option ε
  | [] => ([], none)
  | ns :: rest =>
    match cli.createRegistrySecretResult ns with
    | some e => ([SecretCall.createSecret ns], some e)
    | none =>
      let r := runCreates cli rest
      (SecretCall.createSecret ns :: r.1, r.2)

/-- `updateKubeAccess` (lines 136-163).  `cliResult` is the outcome of
`GetKubeClient` (line 143).  Returns the trace of external calls issued and
the error returned, `none` meaning success. -/
def updateKubeAccess {ε : Type} (cliResult : Except ε (KubeClient ε))
    (oldNamespaces newNamespaces : List String) : List SecretCall × Option ε :=
  let oldNamespacesSet := toSetList oldNamespaces
  let newNamespacesSet := toSetList newNamespaces
  let toRemove := setDifferenceList oldNamespacesSet newNamespacesSet
  let toAdd := setDifferenceList newNamespacesSet oldNamespacesSet
  match cliResult with
  | .error e => ([], some e)
  | .ok cli =>
    match runDeletes cli toRemove with
    | (tr, some e) => (tr, some e)
    | (tr, none) =>
      let rc := runCreates cli toAdd
      (tr ++ rc.1, rc.2)

/-- True of delete calls. -/
def SecretCall.isDelete : SecretCall → Bool
  | .deleteSecret _ => true
  | .createSecret _ => false

/-- True of create calls. -/
def SecretCall.isCreate : SecretCall → Bool
  | .deleteSecret _ => false
  | .createSecret _ => true

/-- A call trace in which no create call precedes any delete call: once a
create call appears, every later call is also a create. -/
def removalsBeforeAdditions : List SecretCall → Bool
  | [] => true
  | SecretCall.createSecret _ :: rest => rest.all SecretCall.isCreate
  | SecretCall.deleteSecret _ :: rest => removalsBeforeAdditions rest

/-- The client's response to a given call. -/
def callResult {ε : Type} (cli : KubeClient ε) : SecretCall → Option ε
  | .deleteSecret ns => cli.deleteRegistrySecretResult ns
  | .createSecret ns => cli.createRegistrySecretResult ns

lemma runDeletes_all_deletes {ε : Type} (cli : KubeClient ε) (l : List String) :
    (runDeletes cli l).1.all SecretCall.isDelete = true := by
  induction l with
  | nil => simp [runDeletes]
  | cons ns rest ih =>
      simp only [runDeletes]
      cases h : cli.deleteRegistrySecretResult ns with
      | some e => simp [SecretCall.isDelete]
      | none => simpa [SecretCall.isDelete] using ih

lemma runCreates_all_creates {ε : Type} (cli : KubeClient ε) (l : List String) :
    (runCreates cli l).1.all SecretCall.isCreate = true := by
  induction l with
  | nil => simp [runCreates]
  | cons ns rest ih =>
      simp only [runCreates]
      cases h : cli.createRegistrySecretResult ns with
      | some e => simp [SecretCall.isCreate]
      | none => simpa [SecretCall.isCreate] using ih

lemma removalsBeforeAdditions_append (ds cs : List SecretCall)
    (hd : ds.all SecretCall.isDelete = true) (hc : cs.all SecretCall.isCreate = true) :
    removalsBeforeAdditions (ds ++ cs) = true := by
  induction ds with
  | nil =>
      cases cs with
      | nil => simp [removalsBeforeAdditions]
      | cons c rest =>
          cases c with
          | deleteSecret ns => simp [SecretCall.isCreate] at hc
          | createSecret ns =>
              simp only [List.nil_append, removalsBeforeAdditions]
              simpa [SecretCall.isCreate] using hc
  | cons d rest ih =>
      cases d with
      | createSecret ns => simp [SecretCall.isDelete] at hd
      | deleteSecret ns =>
          simp only [List.cons_append, removalsBeforeAdditions]
          exact ih (by simpa [SecretCall.isDelete] using hd)

lemma runDeletes_error {ε : Type} (cli : KubeClient ε) (l : List String)
    (t : List SecretCall) (e : ε) (h : runDeletes cli l = (t, some e)) :
    ∃ pre last, t = pre ++ [last] ∧ callResult cli last = some e ∧
      ∀ c ∈ pre, callResult cli c = none := by
  induction l generalizing t with
  | nil => simp [runDeletes] at h
  | cons ns rest ih =>
      simp only [runDeletes] at h
      cases hr : cli.deleteRegistrySecretResult ns with
      | some e' =>
          rw [hr] at h
          obtain ⟨ht, he⟩ := Prod.mk.injEq .. ▸ h
          exact ⟨[], SecretCall.deleteSecret ns, by simp [← ht],
            by simpa [callResult, hr] using he, by simp⟩
      | none =>
          rw [hr] at h
          obtain ⟨ht, he⟩ := Prod.mk.injEq .. ▸ h
          obtain ⟨pre, last, hsplit, hlast, hpre⟩ :=
            ih (runDeletes cli rest).1 (by rw [← he])
          refine ⟨SecretCall.deleteSecret ns :: pre, last, by simp [← ht, hsplit], hlast, ?_⟩
          intro c hc
          rcases List.mem_cons.mp hc with hc | hc
          · simpa [hc, callResult] using hr
          · exact hpre c hc

lemma runDeletes_none {ε : Type} (cli : KubeClient ε) (l : List String)
    (t : List SecretCall) (h : runDeletes cli l = (t, none)) :
    ∀ c ∈ t, callResult cli c = none := by
  induction l generalizing t with
  | nil =>
      simp only [runDeletes, Prod.mk.injEq] at h
      simp [← h.1]
  | cons ns rest ih =>
      simp only [runDeletes] at h
      cases hr : cli.deleteRegistrySecretResult ns with
      | some e' => rw [hr] at h; simp at h
      | none =>
          rw [hr] at h
          obtain ⟨ht, he⟩ := Prod.mk.injEq .. ▸ h
          intro c hc
          rw [← ht] at hc
          rcases List.mem_cons.mp hc with hc | hc
          · simpa [hc, callResult] using hr
          · exact ih (runDeletes cli rest).1 (by rw [← he]) c hc

lemma runCreates_error {ε : Type} (cli : KubeClient ε) (l : List String)
    (t : List SecretCall) (e : ε) (h : runCreates cli l = (t, some e)) :
    ∃ pre last, t = pre ++ [last] ∧ callResult cli last = some e ∧
      ∀ c ∈ pre, callResult cli c = none := by
  induction l generalizing t with
  | nil => simp [runCreates] at h
  | cons ns rest ih =>
      simp only [runCreates] at h
      cases hr : cli.createRegistrySecretResult ns with
      | some e' =>
          rw [hr] at h
          obtain ⟨ht, he⟩ := Prod.mk.injEq .. ▸ h
          exact ⟨[], SecretCall.createSecret ns, by simp [← ht],
            by simpa [callResult, hr] using he, by simp⟩
      | none =>
          rw [hr] at h
          obtain ⟨ht, he⟩ := Prod.mk.injEq .. ▸ h
          obtain ⟨pre, last, hsplit, hlast, hpre⟩ :=
            ih (runCreates cli rest).1 (by rw [← he])
          refine ⟨SecretCall.createSecret ns :: pre, last, by simp [← ht, hsplit], hlast, ?_⟩
          intro c hc
          rcases List.mem_cons.mp hc with hc | hc
          · simpa [hc, callResult] using hr
          · exact hpre c hc

/-- Sample client used to exercise the fail-fast theorem on a concrete run:
deleting the secret for namespace "a" fails with error 7, everything else
succeeds. -/
def sampleKubeClient : KubeClient Nat where
  deleteRegistrySecretResult := fun ns => if ns = "a" then some 7 else none
  createRegistrySecretResult := fun _ => none

/-- C1: the Set Reconciler, given the old and new namespace collections,
returns exactly `toAdd = new − old` and `toRemove = old − new` — standard set
difference over the distinct elements of the inputs — and for two empty
inputs both results are empty. -/
theorem reconciler_computes_set_differences (oldNamespaces newNamespaces : List String) :
    namespacesToAdd oldNamespaces newNamespaces
        = newNamespaces.toFinset \ oldNamespaces.toFinset ∧
    namespacesToRemove oldNamespaces newNamespaces
        = oldNamespaces.toFinset \ newNamespaces.toFinset ∧
    namespacesToAdd [] [] = ∅ ∧ namespacesToRemove [] [] = ∅ := by
  refine ⟨?_, ?_, ?_, ?_⟩ <;>
    simp [namespacesToAdd, namespacesToRemove, toSet_eq_toFinset, setDifference_eq_sdiff]

/-- C3: for every pair of inputs, the delta computed by the reconciler is
disjoint — no namespace is both in `toAdd` and in `toRemove`. -/
theorem reconciler_delta_disjoint (oldNamespaces newNamespaces : List String) :
    namespacesToAdd oldNamespaces newNamespaces
      ∩ namespacesToRemove oldNamespaces newNamespaces = ∅ := by
  simp only [namespacesToAdd, namespacesToRemove, setDifference_eq_sdiff]
  ext x
  simp only [Finset.mem_inter, Finset.mem_sdiff, Finset.not_mem_empty, iff_false]
  tauto

/-- C4: in the sequence of external secret-provisioning calls issued by the
Access Synchronizer during one synchronization, every delete call is issued
before any create call; no create call ever precedes a delete call. -/
theorem synchronizer_removals_before_additions {ε : Type}
    (cliResult : Except ε (KubeClient ε)) (oldNamespaces newNamespaces : List String) :
    removalsBeforeAdditions (updateKubeAccess cliResult oldNamespaces newNamespaces).1 = true := by
  cases cliResult with
  | error e => simp [updateKubeAccess, removalsBeforeAdditions]
  | ok cli =>
      simp only [updateKubeAccess]
      rcases hr : runDeletes cli
          (setDifferenceList (toSetList oldNamespaces) (toSetList newNamespaces)) with ⟨tr, r⟩
      cases r with
      | some e =>
          simp only [hr]
          have := runDeletes_all_deletes cli
            (setDifferenceList (toSetList oldNamespaces) (toSetList newNamespaces))
          rw [hr] at this
          simpa using removalsBeforeAdditions_append tr [] this (by simp)
      | none =>
          simp only [hr]
          have hd := runDeletes_all_deletes cli
            (setDifferenceList (toSetList oldNamespaces) (toSetList newNamespaces))
          rw [hr] at hd
          have hc := runCreates_all_creates cli
            (setDifferenceList (toSetList newNamespaces) (toSetList oldNamespaces))
          exact removalsBeforeAdditions_append tr _ hd hc

/-- C5: if a delete-secret or create-secret call made by the Access
Synchronizer returns an error, the synchronizer issues no further external
calls (the failing call is the last one in the trace, and every earlier call
succeeded) and returns that first error to its caller unchanged. -/
theorem synchronizer_fail_fast {ε : Type} (cli : KubeClient ε)
    (oldNamespaces newNamespaces : List String) (trace : List SecretCall) (e : ε)
    (h : updateKubeAccess (Except.ok cli) oldNamespaces newNamespaces = (trace, some e)) :
    ∃ pre last, trace = pre ++ [last] ∧ callResult cli last = some e ∧
      ∀ c ∈ pre, callResult cli c = none := by
  simp only [updateKubeAccess] at h
  rcases hr : runDeletes cli
      (setDifferenceList (toSetList oldNamespaces) (toSetList newNamespaces)) with ⟨tr, r⟩
  rw [hr] at h
  cases r with
  | some e' =>
      obtain ⟨ht, he⟩ := Prod.mk.injEq .. ▸ h
      obtain rfl : e' = e := by simpa using he
      exact ht ▸ runDeletes_error cli _ tr e' hr
  | none =>
      obtain ⟨ht, he⟩ := Prod.mk.injEq .. ▸ h
      rcases hc : runCreates cli
          (setDifferenceList (toSetList newNamespaces) (toSetList oldNamespaces)) with ⟨tc, rc⟩
      rw [hc] at ht he
      cases rc with
      | none => simp at he
      | some e' =>
          obtain rfl : e' = e := by simpa using he
          obtain ⟨pre, last, hsplit, hlast, hpre⟩ := runCreates_error cli _ tc e' hc
          refine ⟨tr ++ pre, last, by simp [← ht, hsplit], hlast, ?_⟩
          intro c hmem
          rcases List.mem_append.mp hmem with hmem | hmem
          · exact runDeletes_none cli _ tr hr c hmem
          · exact hpre c hmem

/-- Witness for C5: running the synchronizer with `sampleKubeClient` on
`old = ["a","b"]`, `new = ["b","c"]` makes the delete of "a" fail with
error 7; the trace is exactly that one call and the error is propagated
unchanged. -/
theorem synchronizer_fail_fast_witness :
    ∃ pre last, [SecretCall.deleteSecret "a"] = pre ++ [last] ∧
      callResult sampleKubeClient last = some 7 ∧
      ∀ c ∈ pre, callResult sampleKubeClient c = none :=
  synchronizer_fail_fast sampleKubeClient ["a", "b"] ["b", "c"]
    [SecretCall.deleteSecret "a"] 7 (by decide)

/-! ## Transactional Mutation Executor
(settings_update.go 122-130, endpoint_registry_access.go 54-60)

Both handlers dispatch the same mutation body either directly against
`handler.DataStore` (when the `FeatureNoTx` flag is enabled) or inside
`handler.DataStore.UpdateTx` (otherwise).  A mutation body is modelled as a
state transformer on the persisted store state `σ`: it returns the store
state it reached together with its result.  In direct mode the reached state
is the persisted state; in transactional mode `UpdateTx` commits the reached
state on success and rolls back to the starting state on error, re-raising
the body's error unchanged. -/

/-- The dual-mode executor: `noTxEnabled` is `featureflags.IsEnabled(portainer.FeatureNoTx)`.
The same `body` is invoked in both modes; only the commit/rollback treatment
of the reached state differs. -/
def executeMutation {σ ε β : Type} (noTxEnabled : Bool)
    (body : σ → σ × Except ε β) (s : σ) : σ × Except ε β :=
  if noTxEnabled then
    body s
  else
    match body s with
    | (s', .ok b) => (s', .ok b)
    | (_, .error e) => (s, .error e)

/-- C2: for any mutation body written against the shared store capability
interface and any starting store state, if the body succeeds then the direct
(no-transaction) executor path and the transactional executor path produce
the identical resulting persisted store state and result; the body invoked is
the same function in both modes, selected only by the feature flag. -/
theorem executor_modes_agree_on_success {σ ε β : Type}
    (body : σ → σ × Except ε β) (s s' : σ) (b : β)
    (h : body s = (s', Except.ok b)) :
    executeMutation true body s = (s', Except.ok b) ∧
    executeMutation false body s = (s', Except.ok b) := by
  constructor
  · simpa [executeMutation] using h
  · simp only [executeMutation, if_neg (by simp : ¬False), h]
    simp

/-- Witness for C2: a concrete body (increment a counter and report the old
value) run from state 10 yields persisted state 11 and result 10 in both
executor modes. -/
theorem executor_modes_agree_on_success_witness :
    executeMutation true (fun n : Nat => (n + 1, Except.ok (ε := Unit) n)) 10 = (11, Except.ok 10) ∧
    executeMutation false (fun n : Nat => (n + 1, Except.ok (ε := Unit) n)) 10 = (11, Except.ok 10) :=
  executor_modes_agree_on_success (fun n : Nat => (n + 1, Except.ok n)) 10 11 10 rfl

/-! ## Partial-Update Merge Engine (`updateSettings`, settings_update.go 145-311)

The `portainer.Settings` aggregate and the `settingsUpdatePayload` are
modelled with the fields `updateSettings` reads or writes; Go pointer fields
(`*T`, present/absent distinguishable from present/empty) become `Option T`.
The nested `LDAPSettings` / `OAuthSettings` blocks are reduced to the fields
the merge treats specially (`ReaderDN`/`Password`, `ClientSecret`/
`KubeSecretKey`) plus representative plainly-copied fields (`URL`,
`StartTLS`, `TLSConfig`; `ClientID`); every omitted nested field is copied
wholesale exactly like the representative ones.  A Go block of the shape
`if payload.X != nil { settings.X = *payload.X }` is rendered as
`X := payload.X.getD settings.X` (same result: the payload value when
present, the previous value otherwise).  External collaborators
(`demoService`, `libhelm`, `SnapshotService`, `JWTService`, `FileService`,
the datastore write) are an environment of response functions, and the calls
issued to the dependent subsystems are recorded in a trace. -/

/-- `portainer.Pair` (label name/value). -/
structure Pair where
  name : String
  value : String
deriving DecidableEq

/-- The LDAP TLS configuration read and written by `updateTLS`. -/
structure TLSConfiguration where
  TLS : Bool
  TLSSkipVerify : Bool
  TLSCACertPath : String
deriving DecidableEq

/-- `portainer.LDAPSettings`, reduced to the merge-relevant fields. -/
structure LDAPSettings where
  ReaderDN : String
  Password : String
  URL : String
  StartTLS : Bool
  TLSConfig : TLSConfiguration
deriving DecidableEq

/-- `portainer.OAuthSettings`, reduced to the merge-relevant fields.
`KubeSecretKey` is a nil-able `[]byte` in Go, hence an `Option`. -/
structure OAuthSettings where
  ClientID : String
  ClientSecret : String
  AccessTokenURI : String
  KubeSecretKey : Option String
deriving DecidableEq

/-- `portainer.InternalAuthSettings`. -/
structure InternalAuthSettings where
  RequiredPasswordLength : Nat
deriving DecidableEq

/-- The `portainer.Settings` aggregate, restricted to the fields
`updateSettings` touches. -/
structure Settings where
  LogoURL : String
  BlackListedLabels : List Pair
  AuthenticationMethod : Nat
  InternalAuthSettings : InternalAuthSettings
  LDAPSettings : LDAPSettings
  OAuthSettings : OAuthSettings
  SnapshotInterval : String
  TemplatesURL : String
  EdgeAgentCheckinInterval : Int
  ShowKomposeBuildOption : Bool
  EnableEdgeComputeFeatures : Bool
  UserSessionTimeout : String
  KubeconfigExpiry : String
  EnableTelemetry : Bool
  HelmRepositoryURL : String
  KubectlShellImage : String
  TrustOnFirstConnect : Bool
  EnforceEdgeID : Bool
  EdgePortainerURL : String
deriving DecidableEq

/-- `settingsUpdatePayload` (settings_update.go 22-58): every field optional. -/
structure SettingsUpdatePayload where
  LogoURL : Option String
  BlackListedLabels : Option (List Pair)
  AuthenticationMethod : Option Nat
  InternalAuthSettings : Option InternalAuthSettings
  LDAPSettings : Option LDAPSettings
  OAuthSettings : Option OAuthSettings
  SnapshotInterval : Option String
  TemplatesURL : Option String
  EdgeAgentCheckinInterval : Option Int
  ShowKomposeBuildOption : Option Bool
  EnableEdgeComputeFeatures : Option Bool
  UserSessionTimeout : Option String
  KubeconfigExpiry : Option String
  EnableTelemetry : Option Bool
  HelmRepositoryURL : Option String
  KubectlShellImage : Option String
  TrustOnFirstConnect : Option Bool
  EnforceEdgeID : Option Bool
  EdgePortainerURL : Option String
deriving DecidableEq

/-- Classified handler errors (`httperror.BadRequest` / `NotFound` /
`Forbidden` / `InternalServerError`), carrying the handler's message. -/
inductive HErr
  | badRequest (msg : String)
  | notFound (msg : String)
  | forbidden (msg : String)
  | internalServer (msg : String)
deriving DecidableEq

/-- One call issued to a dependent subsystem during the merge. -/
inductive SideEffect
  | validateHelmRepositoryURL (url : String)
  | setSnapshotInterval (interval : String)
  | setUserSessionDuration (duration : Nat)
deriving DecidableEq

/-- External collaborators of `updateSettings` as response functions:
`true` / `none`-free values mean the call succeeds. -/
structure SettingsEnv where
  isDemo : Bool
  validateHelmRepositoryOk : String → Bool
  setSnapshotIntervalOk : String → Bool
  parseDuration : String → Nat
  caCertPath : String
  deleteTLSFilesOk : Bool
  persistOk : Bool

/-- `portainer.DefaultHelmRepositoryURL`.  Modelled from the spec: the
constant itself lives outside the extracted sources; the spec calls it the
"known-good default" Helm repository URL. -/
def DefaultHelmRepositoryURL : String :=
  "https://charts.bitnami.com/bitnami"

/-- Go's `strings.ToLower`, character by character on the string's data
(kernel-computable rendering of `String.toLower`). -/
def toLowerString (s : String) : String :=
  String.mk (s.data.map Char.toLower)

/-- Go's `strings.TrimSuffix`: drop the suffix if present, else unchanged
(kernel-computable rendering over the string's data). -/
def trimSuffix (s sfx : String) : String :=
  if sfx.data.isSuffixOf s.data then
    String.mk (s.data.take (s.data.length - sfx.data.length))
  else s

/-- Demo-mode suppression (lines 151-154): in demo mode the telemetry and
logo payload fields are cleared before any merge policy runs. -/
def applyDemoSuppression (env : SettingsEnv) (p : SettingsUpdatePayload) : SettingsUpdatePayload :=
  if env.isDemo then {p with EnableTelemetry := none, LogoURL := none} else p

/-- Line 156-158. -/
def applyAuthenticationMethod (p : SettingsUpdatePayload) (s : Settings) : Settings :=
  {s with AuthenticationMethod := p.AuthenticationMethod.getD s.AuthenticationMethod}

/-- Line 160-162. -/
def applyLogoURL (p : SettingsUpdatePayload) (s : Settings) : Settings :=
  {s with LogoURL := p.LogoURL.getD s.LogoURL}

/-- Line 164-166. -/
def applyTemplatesURL (p : SettingsUpdatePayload) (s : Settings) : Settings :=
  {s with TemplatesURL := p.TemplatesURL.getD s.TemplatesURL}

/-- Line 168-170. -/
def applyShowKomposeBuildOption (p : SettingsUpdatePayload) (s : Settings) : Settings :=
  {s with ShowKomposeBuildOption := p.ShowKomposeBuildOption.getD s.ShowKomposeBuildOption}

/-- Lines 172-188: the Helm repository URL block.  The external
validation call is recorded in the trace; its failure aborts the merge with
the handler's `BadRequest` error. -/
def applyHelmRepositoryURL (env : SettingsEnv) (p : SettingsUpdatePayload) (s : Settings) :
    List SideEffect × Except HErr Settings :=
  match p.HelmRepositoryURL with
  | none => ([], .ok s)
  | some url =>
    if url ≠ "" then
      let newHelmRepo := trimSuffix (toLowerString url) "/"
      if newHelmRepo ≠ s.HelmRepositoryURL ∧ newHelmRepo ≠ DefaultHelmRepositoryURL then
        if env.validateHelmRepositoryOk url then
          ([SideEffect.validateHelmRepositoryURL url], .ok {s with HelmRepositoryURL := newHelmRepo})
        else
          ([SideEffect.validateHelmRepositoryURL url],
            .error (HErr.badRequest "Invalid Helm repository URL. Must correspond to a valid URL format"))
      else
        ([], .ok {s with HelmRepositoryURL := newHelmRepo})
    else
      ([], .ok {s with HelmRepositoryURL := ""})

/-- Line 190-192. -/
def applyBlackListedLabels (p : SettingsUpdatePayload) (s : Settings) : Settings :=
  {s with BlackListedLabels := p.BlackListedLabels.getD s.BlackListedLabels}

/-- Lines 194-196: only `RequiredPasswordLength` is copied. -/
def applyInternalAuthSettings (p : SettingsUpdatePayload) (s : Settings) : Settings :=
  match p.InternalAuthSettings with
  | none => s
  | some ia =>
      {s with InternalAuthSettings :=
        {s.InternalAuthSettings with RequiredPasswordLength := ia.RequiredPasswordLength}}

/-- Lines 198-213: the whole payload block replaces the stored block, but a
blank `ReaderDN` or `Password` keeps the previously stored value. -/
def applyLDAPSettings (p : SettingsUpdatePayload) (s : Settings) : Settings :=
  match p.LDAPSettings with
  | none => s
  | some l =>
      let ldapReaderDN := if l.ReaderDN ≠ "" then l.ReaderDN else s.LDAPSettings.ReaderDN
      let ldapPassword := if l.Password ≠ "" then l.Password else s.LDAPSettings.Password
      {s with LDAPSettings := {l with ReaderDN := ldapReaderDN, Password := ldapPassword}}

/-- Lines 215-228: the whole payload block replaces the stored block, but an
empty `ClientSecret` and a nil `KubeSecretKey` keep the stored values. -/
def applyOAuthSettings (p : SettingsUpdatePayload) (s : Settings) : Settings :=
  match p.OAuthSettings with
  | none => s
  | some o =>
      let clientSecret := if o.ClientSecret = "" then s.OAuthSettings.ClientSecret else o.ClientSecret
      let kubeSecret := if o.KubeSecretKey = none then s.OAuthSettings.KubeSecretKey else o.KubeSecretKey
      {s with OAuthSettings := {o with ClientSecret := clientSecret, KubeSecretKey := kubeSecret}}

/-- Line 230-232. -/
def applyEnableEdgeComputeFeatures (p : SettingsUpdatePayload) (s : Settings) : Settings :=
  {s with EnableEdgeComputeFeatures := p.EnableEdgeComputeFeatures.getD s.EnableEdgeComputeFeatures}

/-- Line 234-236. -/
def applyTrustOnFirstConnect (p : SettingsUpdatePayload) (s : Settings) : Settings :=
  {s with TrustOnFirstConnect := p.TrustOnFirstConnect.getD s.TrustOnFirstConnect}

/-- Line 238-240. -/
def applyEnforceEdgeID (p : SettingsUpdatePayload) (s : Settings) : Settings :=
  {s with EnforceEdgeID := p.EnforceEdgeID.getD s.EnforceEdgeID}

/-- Line 242-244. -/
def applyEdgePortainerURL (p : SettingsUpdatePayload) (s : Settings) : Settings :=
  {s with EdgePortainerURL := p.EdgePortainerURL.getD s.EdgePortainerURL}

/-- `updateSnapshotInterval` (lines 290-294): sets the field, then calls
`SnapshotService.SetSnapshotInterval`, whose success is the second
component. -/
def updateSnapshotInterval (env : SettingsEnv) (s : Settings) (snapshotInterval : String) :
    Settings × Bool :=
  ({s with SnapshotInterval := snapshotInterval}, env.setSnapshotIntervalOk snapshotInterval)

/-- Lines 246-251: run only when the payload interval differs from the
stored one; a failing subsystem call aborts with `InternalServerError`. -/
def applySnapshotInterval (env : SettingsEnv) (p : SettingsUpdatePayload) (s : Settings) :
    List SideEffect × Except HErr Settings :=
  match p.SnapshotInterval with
  | none => ([], .ok s)
  | some si =>
    if si ≠ s.SnapshotInterval then
      let r := updateSnapshotInterval env s si
      if r.2 then ([SideEffect.setSnapshotInterval si], .ok r.1)
      else ([SideEffect.setSnapshotInterval si],
        .error (HErr.internalServer "Unable to update snapshot interval"))
    else ([], .ok s)

/-- Line 253-255. -/
def applyEdgeAgentCheckinInterval (p : SettingsUpdatePayload) (s : Settings) : Settings :=
  {s with EdgeAgentCheckinInterval := p.EdgeAgentCheckinInterval.getD s.EdgeAgentCheckinInterval}

/-- Line 257-259. -/
def applyKubeconfigExpiry (p : SettingsUpdatePayload) (s : Settings) : Settings :=
  {s with KubeconfigExpiry := p.KubeconfigExpiry.getD s.KubeconfigExpiry}

/-- Lines 261-267: sets the field and reconfigures the JWT service with the
parsed duration; the parse error is discarded by the source (`, _ :=`), so
the model's `parseDuration` is total. -/
def applyUserSessionTimeout (env : SettingsEnv) (p : SettingsUpdatePayload) (s : Settings) :
    List SideEffect × Settings :=
  match p.UserSessionTimeout with
  | none => ([], s)
  | some t =>
    let s' := {s with UserSessionTimeout := t}
    let userSessionDuration := env.parseDuration t
    ([SideEffect.setUserSessionDuration userSessionDuration], s')

/-- Line 269-271. -/
def applyEnableTelemetry (p : SettingsUpdatePayload) (s : Settings) : Settings :=
  {s with EnableTelemetry := p.EnableTelemetry.getD s.EnableTelemetry}

/-- `updateTLS` (lines 296-311). -/
def updateTLS (env : SettingsEnv) (s : Settings) : Except HErr Settings :=
  if (s.LDAPSettings.TLSConfig.TLS || s.LDAPSettings.StartTLS)
      && !s.LDAPSettings.TLSConfig.TLSSkipVerify then
    .ok {s with LDAPSettings :=
      {s.LDAPSettings with TLSConfig :=
        {s.LDAPSettings.TLSConfig with TLSCACertPath := env.caCertPath}}}
  else
    let s' := {s with LDAPSettings :=
      {s.LDAPSettings with TLSConfig :=
        {s.LDAPSettings.TLSConfig with TLSCACertPath := ""}}}
    if env.deleteTLSFilesOk then .ok s'
    else .error (HErr.internalServer "Unable to remove TLS files from disk")

/-- Line 278-280. -/
def applyKubectlShellImage (p : SettingsUpdatePayload) (s : Settings) : Settings :=
  {s with KubectlShellImage := p.KubectlShellImage.getD s.KubectlShellImage}

/-- Sequencing of fallible merge stages: an error short-circuits (Go's early
`return nil, err`), successes accumulate the trace of issued calls. -/
def andThen (r : List SideEffect × Except HErr Settings)
    (f : Settings → List SideEffect × Except HErr Settings) :
    List SideEffect × Except HErr Settings :=
  match r with
  | (t, .error e) => (t, .error e)
  | (t, .ok s) =>
    let r2 := f s
    (t ++ r2.1, r2.2)

/-- The infallible stages between reading the settings and the Helm block
(lines 156-170), in source order. -/
def mergeLeading (p : SettingsUpdatePayload) (s : Settings) : Settings :=
  applyShowKomposeBuildOption p (applyTemplatesURL p (applyLogoURL p (applyAuthenticationMethod p s)))

/-- The infallible stages between the Helm block and the snapshot-interval
block (lines 190-244), in source order. -/
def mergeMiddle (p : SettingsUpdatePayload) (s : Settings) : Settings :=
  applyEdgePortainerURL p (applyEnforceEdgeID p (applyTrustOnFirstConnect p
    (applyEnableEdgeComputeFeatures p (applyOAuthSettings p (applyLDAPSettings p
      (applyInternalAuthSettings p (applyBlackListedLabels p s)))))))

/-- `updateSettings` (settings_update.go 145-288): demo suppression, the
per-field merge stages in source order, the TLS step, and the final
persistence of the aggregate.  Returns the trace of dependent-subsystem
calls issued and either the persisted aggregate or the first error. -/
def updateSettings (env : SettingsEnv) (p0 : SettingsUpdatePayload) (settings0 : Settings) :
    List SideEffect × Except HErr Settings :=
  let p := applyDemoSuppression env p0
  andThen (applyHelmRepositoryURL env p (mergeLeading p settings0)) fun s1 =>
    andThen (applySnapshotInterval env p (mergeMiddle p s1)) fun s2 =>
      let s3 := applyKubeconfigExpiry p (applyEdgeAgentCheckinInterval p s2)
      let r4 := applyUserSessionTimeout env p s3
      let s5 := applyEnableTelemetry p r4.2
      andThen (r4.1, updateTLS env s5) fun s6 =>
        let s7 := applyKubectlShellImage p s6
        if env.persistOk then ([], .ok s7)
        else ([], .error (HErr.internalServer
          "Unable to persist settings changes inside the database"))

/-- The settings value produced by a successful Helm block. -/
def helmResultSettings (p : SettingsUpdatePayload) (s : Settings) : Settings :=
  match p.HelmRepositoryURL with
  | none => s
  | some url =>
    if url ≠ "" then {s with HelmRepositoryURL := trimSuffix (toLowerString url) "/"}
    else {s with HelmRepositoryURL := ""}

/-- The settings value produced by a successful snapshot-interval block. -/
def snapshotResultSettings (p : SettingsUpdatePayload) (s : Settings) : Settings :=
  match p.SnapshotInterval with
  | none => s
  | some si => if si ≠ s.SnapshotInterval then {s with SnapshotInterval := si} else s

/-- The settings value produced by a successful TLS step. -/
def tlsResultSettings (env : SettingsEnv) (s : Settings) : Settings :=
  if (s.LDAPSettings.TLSConfig.TLS || s.LDAPSettings.StartTLS)
      && !s.LDAPSettings.TLSConfig.TLSSkipVerify then
    {s with LDAPSettings :=
      {s.LDAPSettings with TLSConfig :=
        {s.LDAPSettings.TLSConfig with TLSCACertPath := env.caCertPath}}}
  else
    {s with LDAPSettings :=
      {s.LDAPSettings with TLSConfig :=
        {s.LDAPSettings.TLSConfig with TLSCACertPath := ""}}}

/-- The aggregate value a fully successful merge persists. -/
def mergeResult (env : SettingsEnv) (p0 : SettingsUpdatePayload) (settings0 : Settings) : Settings :=
  let p := applyDemoSuppression env p0
  let s1 := helmResultSettings p (mergeLeading p settings0)
  let s2 := snapshotResultSettings p (mergeMiddle p s1)
  let s3 := applyKubeconfigExpiry p (applyEdgeAgentCheckinInterval p s2)
  let s5 := applyEnableTelemetry p (applyUserSessionTimeout env p s3).2
  applyKubectlShellImage p (tlsResultSettings env s5)

lemma andThen_ok (r : List SideEffect × Except HErr Settings)
    (f : Settings → List SideEffect × Except HErr Settings)
    (t : List SideEffect) (s' : Settings) (h : andThen r f = (t, .ok s')) :
    ∃ t₁ s₁, r = (t₁, .ok s₁) ∧ ∃ t₂, f s₁ = (t₂, .ok s') ∧ t = t₁ ++ t₂ := by
  rcases r with ⟨t₁, r₁⟩
  cases r₁ with
  | error e => simp [andThen] at h
  | ok s₁ =>
      simp only [andThen] at h
      obtain ⟨ht, hr⟩ := Prod.mk.injEq .. ▸ h
      exact ⟨t₁, s₁, rfl, (f s₁).1, by rw [← hr], ht.symm⟩

lemma applyHelmRepositoryURL_ok (env : SettingsEnv) (p : SettingsUpdatePayload)
    (s : Settings) (t : List SideEffect) (s' : Settings)
    (h : applyHelmRepositoryURL env p s = (t, .ok s')) :
    s' = helmResultSettings p s := by
  cases hp : p.HelmRepositoryURL with
  | none =>
      simp only [applyHelmRepositoryURL, helmResultSettings, hp] at h ⊢
      exact (Except.ok.inj (Prod.mk.injEq .. ▸ h).2).symm
  | some url =>
      simp only [applyHelmRepositoryURL, helmResultSettings, hp] at h ⊢
      split_ifs at h ⊢ <;>
        first
          | exact (Except.ok.inj (Prod.mk.injEq .. ▸ h).2).symm
          | simp at h

lemma applySnapshotInterval_ok (env : SettingsEnv) (p : SettingsUpdatePayload)
    (s : Settings) (t : List SideEffect) (s' : Settings)
    (h : applySnapshotInterval env p s = (t, .ok s')) :
    s' = snapshotResultSettings p s := by
  cases hp : p.SnapshotInterval with
  | none =>
      simp only [applySnapshotInterval, snapshotResultSettings, hp] at h ⊢
      exact (Except.ok.inj (Prod.mk.injEq .. ▸ h).2).symm
  | some si =>
      simp only [applySnapshotInterval, snapshotResultSettings, updateSnapshotInterval, hp] at h ⊢
      split_ifs at h ⊢ <;>
        first
          | exact (Except.ok.inj (Prod.mk.injEq .. ▸ h).2).symm
          | simp at h

lemma updateTLS_ok (env : SettingsEnv) (s s' : Settings)
    (h : updateTLS env s = .ok s') : s' = tlsResultSettings env s := by
  unfold updateTLS at h
  unfold tlsResultSettings
  split_ifs at h ⊢ <;> exact (Except.ok.inj h).symm

/-- A successful merge persists exactly `mergeResult`. -/
lemma updateSettings_ok (env : SettingsEnv) (p0 : SettingsUpdatePayload)
    (settings0 : Settings) (tr : List SideEffect) (s' : Settings)
    (h : updateSettings env p0 settings0 = (tr, .ok s')) :
    s' = mergeResult env p0 settings0 := by
  unfold updateSettings at h
  obtain ⟨t₁, s₁, h₁, t₂', hrest, -⟩ := andThen_ok _ _ _ _ h
  obtain ⟨t₂, s₂, h₂, t₃', hrest₂, -⟩ := andThen_ok _ _ _ _ hrest
  obtain ⟨t₃, s₆, h₃, t₄', hfin, -⟩ := andThen_ok _ _ _ _ hrest₂
  have hs₆ : updateTLS env (applyEnableTelemetry (applyDemoSuppression env p0)
      (applyUserSessionTimeout env (applyDemoSuppression env p0)
        (applyKubeconfigExpiry (applyDemoSuppression env p0)
          (applyEdgeAgentCheckinInterval (applyDemoSuppression env p0) s₂))).2) = .ok s₆ :=
    congrArg Prod.snd h₃
  have hs₇ : s' = applyKubectlShellImage (applyDemoSuppression env p0) s₆ := by
    by_cases hp : env.persistOk = true
    · rw [if_pos hp] at hfin
      exact (Except.ok.inj ((Prod.mk.injEq .. ▸ hfin).2)).symm
    · rw [if_neg hp] at hfin
      simp at hfin
  rw [hs₇, updateTLS_ok env _ s₆ hs₆,
    applySnapshotInterval_ok env _ _ t₂ s₂ h₂,
    applyHelmRepositoryURL_ok env _ _ t₁ s₁ h₁]
  rfl

@[simp] lemma applyDemoSuppression_LDAPSettings (env : SettingsEnv) (p : SettingsUpdatePayload) :
    (applyDemoSuppression env p).LDAPSettings = p.LDAPSettings := by
  unfold applyDemoSuppression; split <;> rfl

@[simp] lemma applyDemoSuppression_OAuthSettings (env : SettingsEnv) (p : SettingsUpdatePayload) :
    (applyDemoSuppression env p).OAuthSettings = p.OAuthSettings := by
  unfold applyDemoSuppression; split <;> rfl

@[simp] lemma applyDemoSuppression_HelmRepositoryURL (env : SettingsEnv) (p : SettingsUpdatePayload) :
    (applyDemoSuppression env p).HelmRepositoryURL = p.HelmRepositoryURL := by
  unfold applyDemoSuppression; split <;> rfl

@[simp] lemma applyInternalAuthSettings_LDAPSettings (p : SettingsUpdatePayload) (s : Settings) :
    (applyInternalAuthSettings p s).LDAPSettings = s.LDAPSettings := by
  unfold applyInternalAuthSettings; cases p.InternalAuthSettings <;> rfl

@[simp] lemma applyInternalAuthSettings_OAuthSettings (p : SettingsUpdatePayload) (s : Settings) :
    (applyInternalAuthSettings p s).OAuthSettings = s.OAuthSettings := by
  unfold applyInternalAuthSettings; cases p.InternalAuthSettings <;> rfl

@[simp] lemma applyInternalAuthSettings_EnableTelemetry (p : SettingsUpdatePayload) (s : Settings) :
    (applyInternalAuthSettings p s).EnableTelemetry = s.EnableTelemetry := by
  unfold applyInternalAuthSettings; cases p.InternalAuthSettings <;> rfl

@[simp] lemma applyInternalAuthSettings_LogoURL (p : SettingsUpdatePayload) (s : Settings) :
    (applyInternalAuthSettings p s).LogoURL = s.LogoURL := by
  unfold applyInternalAuthSettings; cases p.InternalAuthSettings <;> rfl

@[simp] lemma applyLDAPSettings_OAuthSettings (p : SettingsUpdatePayload) (s : Settings) :
    (applyLDAPSettings p s).OAuthSettings = s.OAuthSettings := by
  unfold applyLDAPSettings; cases p.LDAPSettings <;> rfl

@[simp] lemma applyLDAPSettings_EnableTelemetry (p : SettingsUpdatePayload) (s : Settings) :
    (applyLDAPSettings p s).EnableTelemetry = s.EnableTelemetry := by
  unfold applyLDAPSettings; cases p.LDAPSettings <;> rfl

@[simp] lemma applyLDAPSettings_LogoURL (p : SettingsUpdatePayload) (s : Settings) :
    (applyLDAPSettings p s).LogoURL = s.LogoURL := by
  unfold applyLDAPSettings; cases p.LDAPSettings <;> rfl

@[simp] lemma applyOAuthSettings_LDAPSettings (p : SettingsUpdatePayload) (s : Settings) :
    (applyOAuthSettings p s).LDAPSettings = s.LDAPSettings := by
  unfold applyOAuthSettings; cases p.OAuthSettings <;> rfl

@[simp] lemma applyOAuthSettings_EnableTelemetry (p : SettingsUpdatePayload) (s : Settings) :
    (applyOAuthSettings p s).EnableTelemetry = s.EnableTelemetry := by
  unfold applyOAuthSettings; cases p.OAuthSettings <;> rfl

@[simp] lemma applyOAuthSettings_LogoURL (p : SettingsUpdatePayload) (s : Settings) :
    (applyOAuthSettings p s).LogoURL = s.LogoURL := by
  unfold applyOAuthSettings; cases p.OAuthSettings <;> rfl

@[simp] lemma helmResultSettings_LDAPSettings (p : SettingsUpdatePayload) (s : Settings) :
    (helmResultSettings p s).LDAPSettings = s.LDAPSettings := by
  cases hp : p.HelmRepositoryURL with
  | none => simp [helmResultSettings, hp]
  | some url =>
      simp only [helmResultSettings, hp]
      split <;> rfl

@[simp] lemma helmResultSettings_OAuthSettings (p : SettingsUpdatePayload) (s : Settings) :
    (helmResultSettings p s).OAuthSettings = s.OAuthSettings := by
  cases hp : p.HelmRepositoryURL with
  | none => simp [helmResultSettings, hp]
  | some url =>
      simp only [helmResultSettings, hp]
      split <;> rfl

@[simp] lemma helmResultSettings_EnableTelemetry (p : SettingsUpdatePayload) (s : Settings) :
    (helmResultSettings p s).EnableTelemetry = s.EnableTelemetry := by
  cases hp : p.HelmRepositoryURL with
  | none => simp [helmResultSettings, hp]
  | some url =>
      simp only [helmResultSettings, hp]
      split <;> rfl

@[simp] lemma helmResultSettings_LogoURL (p : SettingsUpdatePayload) (s : Settings) :
    (helmResultSettings p s).LogoURL = s.LogoURL := by
  cases hp : p.HelmRepositoryURL with
  | none => simp [helmResultSettings, hp]
  | some url =>
      simp only [helmResultSettings, hp]
      split <;> rfl

@[simp] lemma snapshotResultSettings_LDAPSettings (p : SettingsUpdatePayload) (s : Settings) :
    (snapshotResultSettings p s).LDAPSettings = s.LDAPSettings := by
  cases hp : p.SnapshotInterval with
  | none => simp [snapshotResultSettings, hp]
  | some si =>
      simp only [snapshotResultSettings, hp]
      split <;> rfl

@[simp] lemma snapshotResultSettings_OAuthSettings (p : SettingsUpdatePayload) (s : Settings) :
    (snapshotResultSettings p s).OAuthSettings = s.OAuthSettings := by
  cases hp : p.SnapshotInterval with
  | none => simp [snapshotResultSettings, hp]
  | some si =>
      simp only [snapshotResultSettings, hp]
      split <;> rfl

@[simp] lemma snapshotResultSettings_EnableTelemetry (p : SettingsUpdatePayload) (s : Settings) :
    (snapshotResultSettings p s).EnableTelemetry = s.EnableTelemetry := by
  cases hp : p.SnapshotInterval with
  | none => simp [snapshotResultSettings, hp]
  | some si =>
      simp only [snapshotResultSettings, hp]
      split <;> rfl

@[simp] lemma snapshotResultSettings_LogoURL (p : SettingsUpdatePayload) (s : Settings) :
    (snapshotResultSettings p s).LogoURL = s.LogoURL := by
  cases hp : p.SnapshotInterval with
  | none => simp [snapshotResultSettings, hp]
  | some si =>
      simp only [snapshotResultSettings, hp]
      split <;> rfl

@[simp] lemma applyUserSessionTimeout_snd_LDAPSettings (env : SettingsEnv)
    (p : SettingsUpdatePayload) (s : Settings) :
    (applyUserSessionTimeout env p s).2.LDAPSettings = s.LDAPSettings := by
  unfold applyUserSessionTimeout; cases p.UserSessionTimeout <;> rfl

@[simp] lemma applyUserSessionTimeout_snd_OAuthSettings (env : SettingsEnv)
    (p : SettingsUpdatePayload) (s : Settings) :
    (applyUserSessionTimeout env p s).2.OAuthSettings = s.OAuthSettings := by
  unfold applyUserSessionTimeout; cases p.UserSessionTimeout <;> rfl

@[simp] lemma applyUserSessionTimeout_snd_EnableTelemetry (env : SettingsEnv)
    (p : SettingsUpdatePayload) (s : Settings) :
    (applyUserSessionTimeout env p s).2.EnableTelemetry = s.EnableTelemetry := by
  unfold applyUserSessionTimeout; cases p.UserSessionTimeout <;> rfl

@[simp] lemma applyUserSessionTimeout_snd_LogoURL (env : SettingsEnv)
    (p : SettingsUpdatePayload) (s : Settings) :
    (applyUserSessionTimeout env p s).2.LogoURL = s.LogoURL := by
  unfold applyUserSessionTimeout; cases p.UserSessionTimeout <;> rfl

@[simp] lemma tlsResultSettings_Password (env : SettingsEnv) (s : Settings) :
    (tlsResultSettings env s).LDAPSettings.Password = s.LDAPSettings.Password := by
  unfold tlsResultSettings; split <;> rfl

@[simp] lemma tlsResultSettings_OAuthSettings (env : SettingsEnv) (s : Settings) :
    (tlsResultSettings env s).OAuthSettings = s.OAuthSettings := by
  unfold tlsResultSettings; split <;> rfl

@[simp] lemma tlsResultSettings_EnableTelemetry (env : SettingsEnv) (s : Settings) :
    (tlsResultSettings env s).EnableTelemetry = s.EnableTelemetry := by
  unfold tlsResultSettings; split <;> rfl

@[simp] lemma tlsResultSettings_LogoURL (env : SettingsEnv) (s : Settings) :
    (tlsResultSettings env s).LogoURL = s.LogoURL := by
  unfold tlsResultSettings; split <;> rfl

lemma applyLDAPSettings_Password (p : SettingsUpdatePayload) (s : Settings)
    (l : LDAPSettings) (hp : p.LDAPSettings = some l) :
    (applyLDAPSettings p s).LDAPSettings.Password
      = if l.Password ≠ "" then l.Password else s.LDAPSettings.Password := by
  simp only [applyLDAPSettings, hp]

lemma applyOAuthSettings_ClientSecret (p : SettingsUpdatePayload) (s : Settings)
    (o : OAuthSettings) (hp : p.OAuthSettings = some o) :
    (applyOAuthSettings p s).OAuthSettings.ClientSecret
      = if o.ClientSecret = "" then s.OAuthSettings.ClientSecret else o.ClientSecret := by
  simp only [applyOAuthSettings, hp]

/-- Sample persisted settings used to exercise the merge theorems. -/
def sampleSettings : Settings where
  LogoURL := "https://example.com/logo.png"
  BlackListedLabels := []
  AuthenticationMethod := 1
  InternalAuthSettings := { RequiredPasswordLength := 12 }
  LDAPSettings :=
    { ReaderDN := "cn=reader", Password := "S1", URL := "ldap.example.com:389",
      StartTLS := false,
      TLSConfig := { TLS := false, TLSSkipVerify := false, TLSCACertPath := "" } }
  OAuthSettings :=
    { ClientID := "client", ClientSecret := "S1", AccessTokenURI := "", KubeSecretKey := none }
  SnapshotInterval := "5m"
  TemplatesURL := ""
  EdgeAgentCheckinInterval := 5
  ShowKomposeBuildOption := false
  EnableEdgeComputeFeatures := false
  UserSessionTimeout := "8h"
  KubeconfigExpiry := "0"
  EnableTelemetry := true
  HelmRepositoryURL := "https://charts.example.com"
  KubectlShellImage := "portainer/kubectl-shell"
  TrustOnFirstConnect := false
  EnforceEdgeID := false
  EdgePortainerURL := ""

/-- Sample collaborators where every external call succeeds. -/
def sampleSettingsEnv : SettingsEnv where
  isDemo := false
  validateHelmRepositoryOk := fun _ => true
  setSnapshotIntervalOk := fun _ => true
  parseDuration := fun _ => 0
  caCertPath := "/data/tls/ldap/ca.pem"
  deleteTLSFilesOk := true
  persistOk := true

/-- A payload with every optional field absent. -/
def emptySettingsPayload : SettingsUpdatePayload where
  LogoURL := none
  BlackListedLabels := none
  AuthenticationMethod := none
  InternalAuthSettings := none
  LDAPSettings := none
  OAuthSettings := none
  SnapshotInterval := none
  TemplatesURL := none
  EdgeAgentCheckinInterval := none
  ShowKomposeBuildOption := none
  EnableEdgeComputeFeatures := none
  UserSessionTimeout := none
  KubeconfigExpiry := none
  EnableTelemetry := none
  HelmRepositoryURL := none
  KubectlShellImage := none
  TrustOnFirstConnect := none
  EnforceEdgeID := none
  EdgePortainerURL := none

/-- C6: for the secret-preserving fields of the settings merge (the nested
LDAP password and OAuth client secret), a successful merge carries the
payload value when the payload nested block supplies a non-empty secret, and
retains the previously persisted secret when the nested block is present but
that sub-field is empty. -/
theorem merge_preserves_nested_secrets (env : SettingsEnv) (p0 : SettingsUpdatePayload)
    (settings0 : Settings) (tr : List SideEffect) (s' : Settings)
    (h : updateSettings env p0 settings0 = (tr, Except.ok s')) :
    (∀ l, p0.LDAPSettings = some l → l.Password ≠ "" →
      s'.LDAPSettings.Password = l.Password) ∧
    (∀ l, p0.LDAPSettings = some l → l.Password = "" →
      s'.LDAPSettings.Password = settings0.LDAPSettings.Password) ∧
    (∀ o, p0.OAuthSettings = some o → o.ClientSecret ≠ "" →
      s'.OAuthSettings.ClientSecret = o.ClientSecret) ∧
    (∀ o, p0.OAuthSettings = some o → o.ClientSecret = "" →
      s'.OAuthSettings.ClientSecret = settings0.OAuthSettings.ClientSecret) := by
  have hres := updateSettings_ok env p0 settings0 tr s' h
  subst hres
  have hL : ∀ l, p0.LDAPSettings = some l →
      (mergeResult env p0 settings0).LDAPSettings.Password
        = if l.Password ≠ "" then l.Password else settings0.LDAPSettings.Password := by
    intro l hl
    have hl' : (applyDemoSuppression env p0).LDAPSettings = some l := by
      rw [applyDemoSuppression_LDAPSettings]; exact hl
    simp only [mergeResult, applyKubectlShellImage, tlsResultSettings_Password,
      applyEnableTelemetry, applyUserSessionTimeout_snd_LDAPSettings, applyKubeconfigExpiry,
      applyEdgeAgentCheckinInterval, snapshotResultSettings_LDAPSettings, mergeMiddle,
      applyEdgePortainerURL, applyEnforceEdgeID, applyTrustOnFirstConnect,
      applyEnableEdgeComputeFeatures, applyOAuthSettings_LDAPSettings,
      applyLDAPSettings_Password _ _ _ hl', applyInternalAuthSettings_LDAPSettings,
      applyBlackListedLabels, helmResultSettings_LDAPSettings, mergeLeading,
      applyShowKomposeBuildOption, applyTemplatesURL, applyLogoURL, applyAuthenticationMethod]
  have hO : ∀ o, p0.OAuthSettings = some o →
      (mergeResult env p0 settings0).OAuthSettings.ClientSecret
        = if o.ClientSecret = "" then settings0.OAuthSettings.ClientSecret else o.ClientSecret := by
    intro o ho
    have ho' : (applyDemoSuppression env p0).OAuthSettings = some o := by
      rw [applyDemoSuppression_OAuthSettings]; exact ho
    simp only [mergeResult, applyKubectlShellImage, tlsResultSettings_OAuthSettings,
      applyEnableTelemetry, applyUserSessionTimeout_snd_OAuthSettings, applyKubeconfigExpiry,
      applyEdgeAgentCheckinInterval, snapshotResultSettings_OAuthSettings, mergeMiddle,
      applyEdgePortainerURL, applyEnforceEdgeID, applyTrustOnFirstConnect,
      applyEnableEdgeComputeFeatures, applyOAuthSettings_ClientSecret _ _ _ ho',
      applyLDAPSettings_OAuthSettings, applyInternalAuthSettings_OAuthSettings,
      applyBlackListedLabels, helmResultSettings_OAuthSettings, mergeLeading,
      applyShowKomposeBuildOption, applyTemplatesURL, applyLogoURL, applyAuthenticationMethod]
  refine ⟨fun l hl hne => ?_, fun l hl he => ?_, fun o ho hne => ?_, fun o ho he => ?_⟩
  · rw [hL l hl, if_pos hne]
  · rw [hL l hl, if_neg (by simp [he])]
  · rw [hO o ho, if_neg hne]
  · rw [hO o ho, if_pos he]

/-- Payload exercising C6: nested LDAP and OAuth blocks present with empty
secret sub-fields. -/
def secretsPayload : SettingsUpdatePayload :=
  {emptySettingsPayload with
    LDAPSettings := some
      { ReaderDN := "", Password := "", URL := "ldap2.example.com:389",
        StartTLS := false,
        TLSConfig := { TLS := false, TLSSkipVerify := false, TLSCACertPath := "" } },
    OAuthSettings := some
      { ClientID := "client2", ClientSecret := "", AccessTokenURI := "", KubeSecretKey := none }}

/-- Witness for C6: a concrete successful merge of `secretsPayload` over
`sampleSettings`. -/
theorem merge_preserves_nested_secrets_witness :
    (∀ l, secretsPayload.LDAPSettings = some l → l.Password ≠ "" →
      (mergeResult sampleSettingsEnv secretsPayload sampleSettings).LDAPSettings.Password
        = l.Password) ∧
    (∀ l, secretsPayload.LDAPSettings = some l → l.Password = "" →
      (mergeResult sampleSettingsEnv secretsPayload sampleSettings).LDAPSettings.Password
        = sampleSettings.LDAPSettings.Password) ∧
    (∀ o, secretsPayload.OAuthSettings = some o → o.ClientSecret ≠ "" →
      (mergeResult sampleSettingsEnv secretsPayload sampleSettings).OAuthSettings.ClientSecret
        = o.ClientSecret) ∧
    (∀ o, secretsPayload.OAuthSettings = some o → o.ClientSecret = "" →
      (mergeResult sampleSettingsEnv secretsPayload sampleSettings).OAuthSettings.ClientSecret
        = sampleSettings.OAuthSettings.ClientSecret) :=
  merge_preserves_nested_secrets sampleSettingsEnv secretsPayload sampleSettings
    (updateSettings sampleSettingsEnv secretsPayload sampleSettings).1
    (mergeResult sampleSettingsEnv secretsPayload sampleSettings)
    rfl

/-- C8: for the restricted (demo) account class, a successful settings merge
leaves the telemetry flag and the branding logo URL of the persisted settings
unchanged, for every payload (including a payload that explicitly sets
them). -/
theorem demo_suppression_frame (env : SettingsEnv) (p0 : SettingsUpdatePayload)
    (settings0 : Settings) (tr : List SideEffect) (s' : Settings)
    (hdemo : env.isDemo = true)
    (h : updateSettings env p0 settings0 = (tr, Except.ok s')) :
    s'.EnableTelemetry = settings0.EnableTelemetry ∧ s'.LogoURL = settings0.LogoURL := by
  have hres := updateSettings_ok env p0 settings0 tr s' h
  subst hres
  have hsup : applyDemoSuppression env p0
      = {p0 with EnableTelemetry := none, LogoURL := none} := by
    simp [applyDemoSuppression, hdemo]
  constructor
  · simp only [mergeResult, hsup, applyKubectlShellImage, tlsResultSettings_EnableTelemetry,
      applyEnableTelemetry, applyUserSessionTimeout_snd_EnableTelemetry, applyKubeconfigExpiry,
      applyEdgeAgentCheckinInterval, snapshotResultSettings_EnableTelemetry, mergeMiddle,
      applyEdgePortainerURL, applyEnforceEdgeID, applyTrustOnFirstConnect,
      applyEnableEdgeComputeFeatures, applyOAuthSettings_EnableTelemetry,
      applyLDAPSettings_EnableTelemetry, applyInternalAuthSettings_EnableTelemetry,
      applyBlackListedLabels, helmResultSettings_EnableTelemetry, mergeLeading,
      applyShowKomposeBuildOption, applyTemplatesURL, applyLogoURL, applyAuthenticationMethod,
      Option.getD_none]
  · simp only [mergeResult, hsup, applyKubectlShellImage, tlsResultSettings_LogoURL,
      applyEnableTelemetry, applyUserSessionTimeout_snd_LogoURL, applyKubeconfigExpiry,
      applyEdgeAgentCheckinInterval, snapshotResultSettings_LogoURL, mergeMiddle,
      applyEdgePortainerURL, applyEnforceEdgeID, applyTrustOnFirstConnect,
      applyEnableEdgeComputeFeatures, applyOAuthSettings_LogoURL,
      applyLDAPSettings_LogoURL, applyInternalAuthSettings_LogoURL,
      applyBlackListedLabels, helmResultSettings_LogoURL, mergeLeading,
      applyShowKomposeBuildOption, applyTemplatesURL, applyLogoURL, applyAuthenticationMethod,
      Option.getD_none]

/-- Demo-mode collaborators. -/
def demoSettingsEnv : SettingsEnv :=
  {sampleSettingsEnv with isDemo := true}

/-- Payload exercising C8: explicitly flips telemetry and the logo URL. -/
def demoPayload : SettingsUpdatePayload :=
  {emptySettingsPayload with
    EnableTelemetry := some false,
    LogoURL := some "https://elsewhere.example.com/logo.png"}

/-- Witness for C8: a concrete demo-mode merge that tries to flip telemetry
and the logo URL and changes neither. -/
theorem demo_suppression_frame_witness :
    (mergeResult demoSettingsEnv demoPayload sampleSettings).EnableTelemetry
      = sampleSettings.EnableTelemetry ∧
    (mergeResult demoSettingsEnv demoPayload sampleSettings).LogoURL
      = sampleSettings.LogoURL :=
  demo_suppression_frame demoSettingsEnv demoPayload sampleSettings
    (updateSettings demoSettingsEnv demoPayload sampleSettings).1
    (mergeResult demoSettingsEnv demoPayload sampleSettings)
    rfl rfl

lemma andThen_fst_nil_tail (t : List SideEffect) (r : Except HErr Settings)
    (f : Settings → List SideEffect × Except HErr Settings)
    (hf : ∀ s, (f s).1 = []) : (andThen (t, r) f).1 = t := by
  cases r with
  | error e => rfl
  | ok s => simp [andThen, hf]

lemma andThen_ok_fst (t : List SideEffect) (s : Settings)
    (f : Settings → List SideEffect × Except HErr Settings) :
    (andThen (t, Except.ok s) f).1 = t ++ (f s).1 := rfl

lemma andThen_fst_congr (t : List SideEffect) (r r' : Except HErr Settings)
    (f f' : Settings → List SideEffect × Except HErr Settings)
    (hf : ∀ s, (f s).1 = []) (hf' : ∀ s, (f' s).1 = []) :
    (andThen (t, r) f).1 = (andThen (t, r') f').1 := by
  rw [andThen_fst_nil_tail t r f hf, andThen_fst_nil_tail t r' f' hf']

/-- Payload exercising C7: requests a new snapshot interval. -/
def snapshotPayload : SettingsUpdatePayload :=
  {emptySettingsPayload with SnapshotInterval := some "10m"}

/-- Collaborators where persisting the aggregate fails. -/
def persistFailEnv : SettingsEnv :=
  {sampleSettingsEnv with persistOk := false}

/-- Counterexample to C7 as stated: with a payload changing the snapshot
interval and a failing final persistence, the merge as a whole fails, yet the
snapshot-subsystem reconfiguration call has already been issued. -/
theorem snapshot_side_effect_despite_failed_persist :
    (updateSettings persistFailEnv snapshotPayload sampleSettings).2
        = Except.error (HErr.internalServer
            "Unable to persist settings changes inside the database") ∧
    SideEffect.setSnapshotInterval "10m"
        ∈ (updateSettings persistFailEnv snapshotPayload sampleSettings).1 :=
  ⟨rfl, by decide⟩

/-- C7 (amended): the dependent-subsystem side effects are performed inline
while the corresponding field is merged, so the trace of issued calls is
unchanged by whether the later TLS-file step or the final persistence of the
aggregate succeeds; in particular a side effect may already have been
performed when the merge as a whole fails. -/
theorem side_effect_trace_independent_of_late_failures (env : SettingsEnv)
    (p0 : SettingsUpdatePayload) (settings0 : Settings) (b1 b2 : Bool) :
    (updateSettings {env with deleteTLSFilesOk := b1, persistOk := b2} p0 settings0).1
      = (updateSettings env p0 settings0).1 := by
  have henv1 : applyDemoSuppression {env with deleteTLSFilesOk := b1, persistOk := b2}
      = applyDemoSuppression env := rfl
  have henv2 : applyHelmRepositoryURL {env with deleteTLSFilesOk := b1, persistOk := b2}
      = applyHelmRepositoryURL env := rfl
  have henv3 : applySnapshotInterval {env with deleteTLSFilesOk := b1, persistOk := b2}
      = applySnapshotInterval env := rfl
  have henv4 : applyUserSessionTimeout {env with deleteTLSFilesOk := b1, persistOk := b2}
      = applyUserSessionTimeout env := rfl
  simp only [updateSettings, henv1, henv2, henv3, henv4]
  rcases hh : applyHelmRepositoryURL env (applyDemoSuppression env p0)
      (mergeLeading (applyDemoSuppression env p0) settings0) with ⟨t1, r1⟩
  cases r1 with
  | error e => rfl
  | ok s1 =>
      rw [andThen_ok_fst, andThen_ok_fst]
      congr 1
      dsimp only
      rcases hs : applySnapshotInterval env (applyDemoSuppression env p0)
          (mergeMiddle (applyDemoSuppression env p0) s1) with ⟨t2, r2⟩
      cases r2 with
      | error e => rfl
      | ok s2 =>
          rw [andThen_ok_fst, andThen_ok_fst]
          congr 1
          dsimp only
          apply andThen_fst_congr
          · intro s
            dsimp only
            split <;> rfl
          · intro s
            dsimp only
            split <;> rfl

/-- True of the external Helm-repository validation call. -/
def SideEffect.isHelmCheck : SideEffect → Bool
  | .validateHelmRepositoryURL _ => true
  | .setSnapshotInterval _ => false
  | .setUserSessionDuration _ => false

lemma applySnapshotInterval_no_helm (env : SettingsEnv) (p : SettingsUpdatePayload)
    (s : Settings) : ∀ c ∈ (applySnapshotInterval env p s).1, c.isHelmCheck = false := by
  cases hp : p.SnapshotInterval with
  | none => simp [applySnapshotInterval, hp]
  | some si =>
      simp only [applySnapshotInterval, hp]
      split_ifs <;> simp [SideEffect.isHelmCheck]

lemma applyUserSessionTimeout_no_helm (env : SettingsEnv) (p : SettingsUpdatePayload)
    (s : Settings) : ∀ c ∈ (applyUserSessionTimeout env p s).1, c.isHelmCheck = false := by
  cases hp : p.UserSessionTimeout with
  | none => simp [applyUserSessionTimeout, hp]
  | some t => simp [applyUserSessionTimeout, hp, SideEffect.isHelmCheck]

lemma applyHelmRepositoryURL_mem (env : SettingsEnv) (p : SettingsUpdatePayload)
    (s : Settings) (url : String) :
    SideEffect.validateHelmRepositoryURL url ∈ (applyHelmRepositoryURL env p s).1 ↔
      (p.HelmRepositoryURL = some url ∧ url ≠ "" ∧
        trimSuffix (toLowerString url) "/" ≠ s.HelmRepositoryURL ∧
        trimSuffix (toLowerString url) "/" ≠ DefaultHelmRepositoryURL) := by
  cases hp : p.HelmRepositoryURL with
  | none => simp [applyHelmRepositoryURL, hp]
  | some u =>
      simp only [applyHelmRepositoryURL, hp]
      split_ifs with hu hcond hv
      · constructor
        · intro hmem
          obtain rfl : url = u := by simpa using hmem
          exact ⟨rfl, hu, hcond.1, hcond.2⟩
        · rintro ⟨huu, -, -, -⟩
          obtain rfl : u = url := by simpa using huu
          simp
      · constructor
        · intro hmem
          obtain rfl : url = u := by simpa using hmem
          exact ⟨rfl, hu, hcond.1, hcond.2⟩
        · rintro ⟨huu, -, -, -⟩
          obtain rfl : u = url := by simpa using huu
          simp
      · constructor
        · intro hmem
          simp at hmem
        · rintro ⟨huu, -, h1, h2⟩
          obtain rfl : u = url := by simpa using huu
          exact absurd ⟨h1, h2⟩ hcond
      · constructor
        · intro hmem
          simp at hmem
        · rintro ⟨huu, hne, -, -⟩
          obtain rfl : u = url := by simpa using huu
          exact absurd hu (by simpa using hne)

/-- Every dependent-subsystem call issued after the Helm block is not the
Helm validation call: the whole trace decomposes as the Helm block trace
followed by non-Helm calls. -/
lemma updateSettings_trace_decomp (env : SettingsEnv) (p0 : SettingsUpdatePayload)
    (settings0 : Settings) :
    ∃ rest, (updateSettings env p0 settings0).1
        = (applyHelmRepositoryURL env (applyDemoSuppression env p0)
            (mergeLeading (applyDemoSuppression env p0) settings0)).1 ++ rest ∧
      ∀ c ∈ rest, c.isHelmCheck = false := by
  simp only [updateSettings]
  rcases hh : applyHelmRepositoryURL env (applyDemoSuppression env p0)
      (mergeLeading (applyDemoSuppression env p0) settings0) with ⟨t1, r1⟩
  cases r1 with
  | error e => exact ⟨[], by simp [andThen], by simp⟩
  | ok s1 =>
      rw [andThen_ok_fst]
      try dsimp only
      rcases hs : applySnapshotInterval env (applyDemoSuppression env p0)
          (mergeMiddle (applyDemoSuppression env p0) s1) with ⟨t2, r2⟩
      have ht2 : ∀ c ∈ t2, c.isHelmCheck = false := by
        intro c hc
        exact applySnapshotInterval_no_helm env (applyDemoSuppression env p0)
          (mergeMiddle (applyDemoSuppression env p0) s1) c (by rw [hs]; exact hc)
      cases r2 with
      | error e => exact ⟨t2, by simp [andThen], ht2⟩
      | ok s2 =>
          rw [andThen_ok_fst]
          try dsimp only
          rw [andThen_fst_nil_tail]
          · refine ⟨t2 ++ (applyUserSessionTimeout env (applyDemoSuppression env p0)
              (applyKubeconfigExpiry (applyDemoSuppression env p0)
                (applyEdgeAgentCheckinInterval (applyDemoSuppression env p0) s2))).1,
              by simp, ?_⟩
            intro c hc
            rcases List.mem_append.mp hc with hc | hc
            · exact ht2 c hc
            · exact applyUserSessionTimeout_no_helm env (applyDemoSuppression env p0) _ c hc
          · intro s
            dsimp only
            split <;> rfl

/-- C9 (amended): the external Helm repository check is invoked if and only
if the payload supplies a non-empty `HelmRepositoryURL` whose normalized
value (lower-cased, trailing "/" stripped) differs from the stored value and
from the known-good default; and when the check fails, the merge aborts with
the handler's `BadRequest` error, so no settings are persisted. -/
theorem helm_validation_gating (env : SettingsEnv) (p0 : SettingsUpdatePayload)
    (settings0 : Settings) (url : String) :
    (SideEffect.validateHelmRepositoryURL url ∈ (updateSettings env p0 settings0).1 ↔
      (p0.HelmRepositoryURL = some url ∧ url ≠ "" ∧
        trimSuffix (toLowerString url) "/" ≠ settings0.HelmRepositoryURL ∧
        trimSuffix (toLowerString url) "/" ≠ DefaultHelmRepositoryURL)) ∧
    ((p0.HelmRepositoryURL = some url ∧ url ≠ "" ∧
        trimSuffix (toLowerString url) "/" ≠ settings0.HelmRepositoryURL ∧
        trimSuffix (toLowerString url) "/" ≠ DefaultHelmRepositoryURL) →
      env.validateHelmRepositoryOk url = false →
      (updateSettings env p0 settings0).2 = Except.error (HErr.badRequest
        "Invalid Helm repository URL. Must correspond to a valid URL format")) := by
  have hpre : (mergeLeading (applyDemoSuppression env p0) settings0).HelmRepositoryURL
      = settings0.HelmRepositoryURL := rfl
  constructor
  · obtain ⟨rest, hdecomp, hrest⟩ := updateSettings_trace_decomp env p0 settings0
    rw [hdecomp, List.mem_append]
    have hnotrest : SideEffect.validateHelmRepositoryURL url ∉ rest := by
      intro hmem
      simpa [SideEffect.isHelmCheck] using hrest _ hmem
    have hmem := applyHelmRepositoryURL_mem env (applyDemoSuppression env p0)
      (mergeLeading (applyDemoSuppression env p0) settings0) url
    rw [applyDemoSuppression_HelmRepositoryURL, hpre] at hmem
    constructor
    · rintro (hin | hin)
      · exact hmem.mp hin
      · exact absurd hin hnotrest
    · intro hconds
      exact Or.inl (hmem.mpr hconds)
  · rintro ⟨hsome, hne, hchg, hdef⟩ hval
    have hp' : (applyDemoSuppression env p0).HelmRepositoryURL = some url := by
      rw [applyDemoSuppression_HelmRepositoryURL]; exact hsome
    have hhelm : applyHelmRepositoryURL env (applyDemoSuppression env p0)
        (mergeLeading (applyDemoSuppression env p0) settings0)
        = ([SideEffect.validateHelmRepositoryURL url], Except.error (HErr.badRequest
            "Invalid Helm repository URL. Must correspond to a valid URL format")) := by
      simp only [applyHelmRepositoryURL, hp']
      rw [if_pos hne, if_pos ⟨hpre ▸ hchg, hdef⟩, if_neg (by simp [hval])]
    simp only [updateSettings]
    rw [hhelm]
    rfl

/-- Payload exercising the C9 counterexample: the raw payload URL differs
from the stored value only by a trailing slash. -/
def helmSlashPayload : SettingsUpdatePayload :=
  {emptySettingsPayload with HelmRepositoryURL := some "https://charts.example.com/"}

/-- Counterexample to C9 as stated: the payload supplies a non-empty Helm
repository URL that differs (as a raw string) from the stored value and from
the known-good default, yet no external check is invoked, because the code
compares the normalized value (lower-cased, trailing "/" stripped), which
equals the stored value here. -/
theorem helm_check_skipped_despite_raw_change :
    helmSlashPayload.HelmRepositoryURL = some "https://charts.example.com/" ∧
    "https://charts.example.com/" ≠ "" ∧
    "https://charts.example.com/" ≠ sampleSettings.HelmRepositoryURL ∧
    "https://charts.example.com/" ≠ DefaultHelmRepositoryURL ∧
    (updateSettings sampleSettingsEnv helmSlashPayload sampleSettings).1 = [] :=
  ⟨rfl, by decide, by decide, by decide, by decide⟩

/-- Collaborators whose Helm repository validation always fails. -/
def helmFailEnv : SettingsEnv :=
  {sampleSettingsEnv with validateHelmRepositoryOk := fun _ => false}

/-- Payload with a genuinely new Helm repository URL. -/
def helmChangedPayload : SettingsUpdatePayload :=
  {emptySettingsPayload with HelmRepositoryURL := some "https://newcharts.example.com/charts"}

/-- Witness for C9 (amended): a failing check on a genuinely changed URL
aborts the merge with the `BadRequest` error. -/
theorem helm_validation_gating_witness :
    (updateSettings helmFailEnv helmChangedPayload sampleSettings).2
      = Except.error (HErr.badRequest
          "Invalid Helm repository URL. Must correspond to a valid URL format") :=
  (helm_validation_gating helmFailEnv helmChangedPayload sampleSettings
      "https://newcharts.example.com/charts").2
    ⟨rfl, by decide, by decide, by decide⟩ rfl

/-! ## Password update (`userUpdatePassword`, user_update_password.go 52-106)

The `portainer.User` record is reduced to the two fields the handler writes
(`Password`, `TokenIssueAt`) plus representative untouched fields; every
omitted field behaves like the representative ones (read once, written back
unchanged).  `payload.Validate` (lines 25-33, run by
`DecodeAndValidateJSONPayload`) rejects empty current/new passwords.
External collaborators (demo service, token retrieval, datastore read/write,
crypto service, strength checker, clock) form the environment.  The first
component of the result is the user record written to the store (`none` when
nothing was persisted). -/

/-- `portainer.User`, reduced to the handler-relevant fields. -/
structure User where
  Id : Nat
  Username : String
  Role : Nat
  Password : String
  TokenIssueAt : Int
  ThemeSettings : String
  UseCache : Bool
deriving DecidableEq

/-- `userUpdatePasswordPayload` (lines 18-23). -/
structure UserUpdatePasswordPayload where
  Password : String
  NewPassword : String
deriving DecidableEq

/-- Outcome of `handler.DataStore.User().Read` (line 77), distinguishing the
`IsErrObjectNotFound` case from other store failures. -/
inductive UserReadResult
  | found (user : User)
  | notFound
  | failure
deriving DecidableEq

/-- `portainer.AdministratorRole`.  Modelled from the spec: the role constant
lives outside the extracted sources; the spec only requires that a
non-administrator may change no password but their own. -/
def AdministratorRole : Nat := 1

/-- External collaborators of `userUpdatePassword` as response functions. -/
structure PasswordEnv where
  isDemoUser : Bool
  tokenData : Option (Nat × Nat)
  readUser : UserReadResult
  compareHashAndDataOk : String → String → Bool
  passwordStrengthCheck : String → Bool
  hashResult : String → Option String
  nowUnix : Int
  updateOk : Bool

/-- `userUpdatePassword` (lines 52-106), in source order: demo gate, token
retrieval, authorization, payload validation, user lookup, current-password
check, strength check, hashing, the two field writes, persistence.
`tokenData` is the `(ID, Role)` pair of the session token.  Returns the
persisted user record (when one was written) and the handler result. -/
def userUpdatePassword (env : PasswordEnv) (userID : Nat)
    (payload : UserUpdatePasswordPayload) : Option User × Except HErr Unit :=
  if env.isDemoUser then
    (none, .error (HErr.forbidden "This feature is not available in the demo version of Portainer"))
  else
    match env.tokenData with
    | none => (none, .error (HErr.internalServer "Unable to retrieve user authentication token"))
    | some (tokenID, tokenRole) =>
      if tokenRole ≠ AdministratorRole ∧ tokenID ≠ userID then
        (none, .error (HErr.forbidden "Permission denied to update user"))
      else if payload.Password = "" ∨ payload.NewPassword = "" then
        (none, .error (HErr.badRequest "Invalid request payload"))
      else
        match env.readUser with
        | .notFound =>
          (none, .error (HErr.notFound "Unable to find a user with the specified identifier inside the database"))
        | .failure =>
          (none, .error (HErr.internalServer "Unable to find a user with the specified identifier inside the database"))
        | .found user =>
          if !env.compareHashAndDataOk user.Password payload.Password then
            (none, .error (HErr.forbidden "Current password doesn't match"))
          else if !env.passwordStrengthCheck payload.NewPassword then
            (none, .error (HErr.badRequest "Password does not meet the requirements"))
          else
            match env.hashResult payload.NewPassword with
            | none => (none, .error (HErr.internalServer "Unable to hash user password"))
            | some hashed =>
              let user := {user with Password := hashed}
              let user := {user with TokenIssueAt := env.nowUnix}
              if env.updateOk then (some user, .ok ())
              else (none, .error (HErr.internalServer "Unable to persist user changes inside the database"))

/-- C10: when the password-update operation succeeds, the persisted user
record carries the new password hash and a `TokenIssueAt` equal to the
operation's current clock time, and every other field of the user record is
unchanged. -/
theorem password_update_frame (env : PasswordEnv) (userID : Nat)
    (payload : UserUpdatePasswordPayload) (user0 : User) (hashed : String) (w : Option User)
    (hread : env.readUser = UserReadResult.found user0)
    (hhash : env.hashResult payload.NewPassword = some hashed)
    (h : userUpdatePassword env userID payload = (w, Except.ok ())) :
    w = some {user0 with Password := hashed, TokenIssueAt := env.nowUnix} := by
  rcases htok : env.tokenData with - | ⟨tokenID, tokenRole⟩ <;>
    simp only [userUpdatePassword, htok, hread, hhash] at h <;>
    split_ifs at h <;>
    simp_all

/-- The user on file before the sample password update. -/
def sampleUser : User where
  Id := 7
  Username := "alice"
  Role := 2
  Password := "hash:old-pass"
  TokenIssueAt := 1600000000
  ThemeSettings := "dark"
  UseCache := false

/-- Collaborators for the sample password update: the hash of a plaintext is
"hash:" followed by the plaintext, and comparison checks that shape. -/
def samplePasswordEnv : PasswordEnv where
  isDemoUser := false
  tokenData := some (7, 2)
  readUser := UserReadResult.found sampleUser
  compareHashAndDataOk := fun storedHash candidate => storedHash = "hash:" ++ candidate
  passwordStrengthCheck := fun _ => true
  hashResult := fun plain => some ("hash:" ++ plain)
  nowUnix := 1700000000
  updateOk := true

/-- The sample password-change request. -/
def samplePasswordPayload : UserUpdatePasswordPayload where
  Password := "old-pass"
  NewPassword := "new-pass-123"

/-- Witness for C10: the concrete successful run writes exactly the old
record with the new hash and the new token-issue time. -/
theorem password_update_frame_witness :
    (userUpdatePassword samplePasswordEnv 7 samplePasswordPayload).1
      = some
        {sampleUser with
          Password := "hash:new-pass-123", TokenIssueAt := samplePasswordEnv.nowUnix} :=
  password_update_frame samplePasswordEnv 7 samplePasswordPayload sampleUser
    "hash:new-pass-123" (userUpdatePassword samplePasswordEnv 7 samplePasswordPayload).1
    rfl rfl rfl

end Portainer
